import Mathlib

/-!
# Verification of the DDQ chat backend orchestration

A shallow embedding of the Python backend (`app.py`, `search_service.py`,
`openai_service.py`, `blob_storage_service.py`, `document_generator.py`)
of the `ddq-gpt-app` repository, together with proofs about the chat
request handler, the search-result post-processing and the document
renderer.

External managed services (Azure AI Search, the completion model, Blob
Storage) are modelled by their *outcomes*, supplied as parameters of the
handler's environment: the handler's own control flow — validation,
error recovery, context assembly, de-duplication, response shaping — is
translated statement by statement from `app.py`.
-/

namespace DDQ

/-! ## Search service (`search_service.py`) -/

/-- A raw hit as returned by the upstream Azure index, before
`AzureSearchService.search_documents` post-processes it.  Fields read with
`result[...]` in the Python (`id`, `@search.score`) are total; fields read
with `result.get(key, default)` may be absent upstream and are `Option`s.
The score is never computed on by any code under scrutiny, so it is kept
as an abstract integer. -/
structure RawDoc where
  id : String
  title : Option String
  content : Option String
  source : Option String
  sourceFile : Option String
  score : Int
  captions : List String
deriving DecidableEq, Repr

/-- A processed search document as placed in the `results` list by
`AzureSearchService.search_documents`: every field is total because the
Python builds a dict literal that always contains every key. -/
structure ProcessedDoc where
  id : String
  title : String
  content : String
  source : String
  sourceFile : String
  score : Int
  captions : List String
deriving DecidableEq, Repr

/-- The per-result dict construction in `search_documents`
(`search_service.py` lines 62–70):
`title = result.get("title", "Untitled")`,
`content = result.get("content", "")`,
`source = result.get("source", "")`,
`sourceFile = result.get("sourceFile", "")`. -/
def processResult (r : RawDoc) : ProcessedDoc :=
  { id := r.id
    title := r.title.getD "Untitled"
    content := r.content.getD ""
    source := r.source.getD ""
    sourceFile := r.sourceFile.getD ""
    score := r.score
    captions := r.captions }

/-- The dict `{"count": ..., "results": ...}` returned by
`search_documents`; `count` comes from the upstream `get_count()`. -/
structure SearchResults where
  count : Nat
  results : List ProcessedDoc
deriving DecidableEq, Repr

/-- The result-list assembly loop of `search_documents`
(`search_service.py` lines 59–76); the upstream count is
environment-provided. -/
def search_documents (raw : List RawDoc) (upstreamCount : Nat) : SearchResults :=
  { count := upstreamCount, results := raw.map processResult }

/-! ## Completion service (`openai_service.py`) -/

/-- One element of `completion.choices`; only `message.content` is read
by the handler. -/
structure Choice where
  message_content : String
deriving DecidableEq, Repr

/-- The completion response object; the handler reads only `choices`. -/
structure Completion where
  choices : List Choice
deriving DecidableEq, Repr

/-- `get_openai_completion` (`openai_service.py` lines 28–38) wraps the
remote call in `try/except` and re-raises any exception after logging,
so its observable behaviour is the remote outcome unchanged.  The
outcome is environment-provided: `Except.error e` carries the diagnostic
text of the raised exception. -/
def get_openai_completion (remote : Except String Completion) :
    Except String Completion :=
  remote

/-! ## Request/response data model of the handler (`app.py`) -/

/-- Message roles, for the completion request assembled at
`app.py` lines 92–95. -/
inductive Role
  | system
  | user
  | assistant
deriving DecidableEq, Repr

/-- A role-tagged message. -/
structure Message where
  role : Role
  content : String
deriving DecidableEq, Repr

/-- The request body as the handler observes it.  `badBody` covers every
body for which `request.get_json()` raises or for which
`data.get("prompt")` raises (body not a parseable JSON object): in either
case an exception escapes line 62/63 of `app.py` and reaches the outer
`except`.  `jsonObj prompt` is a parsed JSON object whose `prompt` field
is absent (`none`) or present with a string value. -/
inductive ReqBody
  | badBody
  | jsonObj (prompt : Option String)
deriving DecidableEq, Repr

/-- Outcome of `blob_service.upload_document` when a blob service is
configured: the call either raises, or returns a URL, or returns `None`
(its own internal failure signal, `blob_storage_service.py` lines
67–69). -/
inductive BlobOutcome
  | raises
  | returns (url : Option String)
deriving DecidableEq, Repr

/-- Everything the handler's control flow depends on for one request:
the parsed body, the module-level system prompt, and the configured
services with the outcome each call would have
(`none` = service not configured, mirroring `search_service = None` /
`blob_service = None` at `app.py` lines 43–55). -/
structure ChatEnv where
  body : ReqBody
  systemPrompt : String
  searchOutcome : Option (Except String SearchResults)
  completionOutcome : Except String Completion
  blobOutcome : Option BlobOutcome
deriving Repr

/-- The JSON body of a handler response. -/
inductive RespBody
  | errorBody (error : String)
  | chatBody (ai_response : String) (document_url : Option String)
      (sources : List String)
deriving DecidableEq, Repr

/-- An HTTP response: status code and JSON body. -/
structure HttpResponse where
  status : Nat
  body : RespBody
deriving DecidableEq, Repr

/-- Which external calls the handler made while serving the request. -/
structure Trace where
  searchCalled : Bool
  completionCalled : Bool
  uploadCalled : Bool
deriving DecidableEq, Repr

/-! ## The chat handler (`app.py` `chat_handler`) -/

/-- `source_files.add(f)` on a Python `set`, modelled on a list that
records first-insertion order: adding an element already present is a
no-op.  (CPython's set iteration order is an unspecified function of the
element hashes; this model fixes it to first-insertion order.  No code
under scrutiny depends on the order, only on the membership.) -/
def setAdd (s : List String) (x : String) : List String :=
  if x ∈ s then s else s ++ [x]

/-- The app-level read `result.get("content", "")` at `app.py` line 79.
The dict was built by `processResult`, which always stores the
`content` key, so the default never applies and the read is plain field
access. -/
def appContent (r : ProcessedDoc) : String := r.content

/-- The app-level read `result.get("sourceFile", "Unknown Source")` at
`app.py` line 80.  The dict was built by `processResult`, which always
stores the `sourceFile` key (with `""` when absent upstream), so the
`"Unknown Source"` default never applies and the read is plain field
access. -/
def appSourceFile (r : ProcessedDoc) : String := r.sourceFile

/-- The per-snippet context fragment appended at `app.py` line 81. -/
def snippetBlock (r : ProcessedDoc) : String :=
  "\n---\nSource: " ++ appSourceFile r ++ "\nSnippet: " ++ appContent r ++ "\n---"

/-- What the retrieval stage (`app.py` lines 69–89) produces. -/
structure SearchStageOut where
  context : String
  sourceFiles : List String
  called : Bool
deriving DecidableEq, Repr

/-- The retrieval stage of `chat_handler` (`app.py` lines 69–89):
* no search service configured → fixed "not configured" context;
* `search_documents` raises → the exception is caught and the context
  becomes the fixed "Error retrieving documents" string;
* empty result list (`search_results["results"]` falsy; the outer dict
  is always truthy) → fixed "No relevant documents" context;
* otherwise one loop accumulates both the context block and the set of
  source file names — modelled as two folds computing the same final
  values. -/
def searchStage (so : Option (Except String SearchResults)) : SearchStageOut :=
  match so with
  | none =>
      { context := "\n\nAzure AI Search service is not configured."
        sourceFiles := []
        called := false }
  | some (.error _) =>
      { context := "\n\nError retrieving documents from search index."
        sourceFiles := []
        called := true }
  | some (.ok res) =>
      if res.results.isEmpty then
        { context := "\n\nNo relevant documents found in the search index for this query."
          sourceFiles := []
          called := true }
      else
        { context := res.results.foldl (fun acc r => acc ++ snippetBlock r)
            "\n\nRelevant Document Snippets:\n"
          sourceFiles := res.results.foldl (fun acc r => setAdd acc (appSourceFile r)) []
          called := true }

/-- `completion.choices[0].message.content if completion.choices else
"Sorry, I could not generate a response."` (`app.py` line 100). -/
def extractAnswer (comp : Completion) : String :=
  match comp.choices with
  | [] => "Sorry, I could not generate a response."
  | c :: _ => c.message_content

/-- The document stage of `chat_handler` (`app.py` lines 108–121):
`document_url` starts as `None`; with no blob service nothing happens;
with a blob service the upload is attempted — if it raises, the
exception is caught and `document_url` keeps its prior `None`, otherwise
`document_url` becomes whatever `upload_document` returned (possibly
`None`, its internal failure signal).  The simulated blob name/content
(lines 113–115) only feed the upload call, whose outcome is
environment-provided, so they do not appear in the model.  Returns the
resulting `document_url` and whether an upload call was made. -/
def documentStage (bo : Option BlobOutcome) : Option String × Bool :=
  match bo with
  | none => (none, false)
  | some .raises => (none, true)
  | some (.returns u) => (u, true)

/-- `chat_handler` (`app.py` lines 59–137), returning the HTTP response
together with the trace of external calls made.

* A body on which extracting the prompt raises escapes to the outer
  `except Exception` (line 130) → `500` with the generic message.
* Missing or empty prompt (`if not user_question`, line 66) → `400`.
* Retrieval via `searchStage`; the system message is the module prompt
  concatenated with the retrieval context (line 93).
* Completion failure (line 101–103) → `500` with the fixed message
  `"Failed to get response from AI model"`, independent of the
  exception's diagnostic.
* Otherwise the document stage runs and the `200` response carries the
  answer, the document URL and `list(source_files)` (lines 124–128). -/
def chat_handler (env : ChatEnv) : HttpResponse × Trace :=
  match env.body with
  | .badBody =>
      (⟨500, .errorBody "An internal server error occurred"⟩, ⟨false, false, false⟩)
  | .jsonObj prompt =>
      match prompt with
      | none => (⟨400, .errorBody "No prompt provided"⟩, ⟨false, false, false⟩)
      | some q =>
          if q = "" then
            (⟨400, .errorBody "No prompt provided"⟩, ⟨false, false, false⟩)
          else
            let s := searchStage env.searchOutcome
            let _messages : List Message :=
              [⟨.system, env.systemPrompt ++ s.context⟩, ⟨.user, q⟩]
            match get_openai_completion env.completionOutcome with
            | .error _ =>
                (⟨500, .errorBody "Failed to get response from AI model"⟩,
                 ⟨s.called, true, false⟩)
            | .ok comp =>
                let d := documentStage env.blobOutcome
                (⟨200, .chatBody (extractAnswer comp) d.1 s.sourceFiles⟩,
                 ⟨s.called, true, d.2⟩)

/-! ## Document renderer (`document_generator.py` `create_docx_document`) -/

/-- Paragraph alignment; `Align.left` stands for python-docx's default
(no explicit alignment set). -/
inductive Align
  | left
  | center
  | right
deriving DecidableEq, Repr

/-- One paragraph of the rendered document: its text, the name of the
style applied (`"Normal"`, `"Title"`, `"Heading"` or `"Source"`; the
typography each style carries is cosmetic and not modelled) and its
alignment. -/
structure Para where
  text : String
  style : String
  align : Align
deriving DecidableEq, Repr

/-- The rendered document: its body paragraphs in order, and the section
footer paragraph. -/
structure RenderedDoc where
  body : List Para
  footer : Para
deriving DecidableEq, Repr

/-- The bullet prefix of a source line
(`f"• {source}"`, `document_generator.py` line 89). -/
def bulletPrefix : String := "• "

/-- The paragraph added for one source entry:
`doc.add_paragraph(f"• {source}", style="Source")`
(`document_generator.py` lines 88–89). -/
def bulletPara (s : String) : Para :=
  ⟨bulletPrefix ++ s, "Source", .left⟩

/-- `create_docx_document` (`document_generator.py` lines 11–103) as the
sequence of `add_paragraph` calls it performs, plus the footer.  The
timestamp (`datetime.now().strftime(...)`) is environment-provided.  The
optional `sources` argument is modelled as a list, with Python's `None`
as `[]`: the guard `if sources and len(sources) > 0` is truthy exactly
for a non-empty list. -/
def create_docx_document (question answer : String) (sources : List String)
    (now : String) : RenderedDoc :=
  let headPart : List Para :=
    [ ⟨"DDQ Response", "Title", .center⟩,
      ⟨"Generated on: " ++ now, "Normal", .right⟩,
      ⟨String.mk (List.replicate 80 '_'), "Normal", .left⟩,
      ⟨"Question:", "Heading", .left⟩,
      ⟨question, "Normal", .left⟩,
      ⟨"", "Normal", .left⟩,
      ⟨"Answer:", "Heading", .left⟩,
      ⟨answer, "Normal", .left⟩ ]
  let sourcesPart : List Para :=
    if sources.isEmpty then []
    else
      ⟨"", "Normal", .left⟩ :: ⟨"Sources:", "Heading", .left⟩ ::
        sources.map bulletPara
  { body := headPart ++ sourcesPart
    footer := ⟨"Hudson Advisors DDQ Assistant", "Normal", .center⟩ }

/-- Spec-side description, written from the specification's wording for
the renderer: the claimed opening sequence of the document, in order —
a centered title, a right-aligned generation timestamp, a visual
separator line, a "Question" heading followed by the verbatim question
text, blank spacing, an "Answer" heading followed by the verbatim answer
text. -/
def claimedSequence (question answer now : String) : List Para :=
  [ ⟨"DDQ Response", "Title", .center⟩,
    ⟨"Generated on: " ++ now, "Normal", .right⟩,
    ⟨String.mk (List.replicate 80 '_'), "Normal", .left⟩,
    ⟨"Question:", "Heading", .left⟩,
    ⟨question, "Normal", .left⟩,
    ⟨"", "Normal", .left⟩,
    ⟨"Answer:", "Heading", .left⟩,
    ⟨answer, "Normal", .left⟩ ]

/-! ## Helper lemmas -/

theorem mem_setAdd {s : List String} {x y : String} :
    y ∈ setAdd s x ↔ y ∈ s ∨ y = x := by
  unfold setAdd
  split
  · rename_i h
    constructor
    · exact Or.inl
    · rintro (hy | rfl)
      · exact hy
      · exact h
  · simp

theorem nodup_setAdd {s : List String} {x : String} (h : s.Nodup) :
    (setAdd s x).Nodup := by
  unfold setAdd
  split
  · exact h
  · rename_i hx
    simp [List.nodup_append, h, hx]

theorem nodup_foldl_setAdd (l : List ProcessedDoc) (acc : List String)
    (h : acc.Nodup) :
    (l.foldl (fun acc r => setAdd acc (appSourceFile r)) acc).Nodup := by
  induction l generalizing acc with
  | nil => exact h
  | cons r rest ih => exact ih _ (nodup_setAdd h)

theorem mem_foldl_setAdd (l : List ProcessedDoc) (acc : List String) (y : String) :
    y ∈ l.foldl (fun acc r => setAdd acc (appSourceFile r)) acc ↔
      y ∈ acc ∨ y ∈ l.map appSourceFile := by
  induction l generalizing acc with
  | nil => simp
  | cons r rest ih =>
      simp only [List.foldl_cons, ih, mem_setAdd, List.map_cons, List.mem_cons]
      tauto

/-- Whether the result list is empty or not, the collected source files
of a successful search are the fold of `setAdd` over the results. -/
theorem searchStage_ok_sourceFiles (res : SearchResults) :
    (searchStage (some (.ok res))).sourceFiles =
      res.results.foldl (fun acc r => setAdd acc (appSourceFile r)) [] := by
  by_cases h : res.results.isEmpty
  · simp [searchStage, h, List.isEmpty_iff.mp h]
  · simp [searchStage, h]

/-- Evaluation of the handler on a well-formed request whose completion
call succeeds. -/
theorem chat_handler_ok_eq (sp : String) (so : Option (Except String SearchResults))
    (bo : Option BlobOutcome) (q : String) (comp : Completion) (hq : q ≠ "") :
    chat_handler ⟨.jsonObj (some q), sp, so, .ok comp, bo⟩ =
      (⟨200, .chatBody (extractAnswer comp) (documentStage bo).1 (searchStage so).sourceFiles⟩,
       ⟨(searchStage so).called, true, (documentStage bo).2⟩) := by
  simp [chat_handler, hq, get_openai_completion]

/-- Evaluation of the handler on a well-formed request whose completion
call raises. -/
theorem chat_handler_err_eq (sp : String) (so : Option (Except String SearchResults))
    (bo : Option BlobOutcome) (q e : String) (hq : q ≠ "") :
    chat_handler ⟨.jsonObj (some q), sp, so, .error e, bo⟩ =
      (⟨500, .errorBody "Failed to get response from AI model"⟩,
       ⟨(searchStage so).called, true, false⟩) := by
  simp [chat_handler, hq, get_openai_completion]

/-- On a successful search the retrieval stage reports that the search
call was made. -/
theorem searchStage_ok_called (res : SearchResults) :
    (searchStage (some (.ok res))).called = true := by
  by_cases h : res.results.isEmpty <;> simp [searchStage, h]

/-- The bullet paragraphs pass the `"Source"` style filter unchanged. -/
theorem filter_bullet (sources : List String) :
    (sources.map bulletPara).filter (fun p => p.style == "Source") =
      sources.map bulletPara := by
  rw [List.filter_eq_self]
  intro p hp
  obtain ⟨s, _, rfl⟩ := List.mem_map.mp hp
  rfl

/-! ## The claims -/

/-- C1: for every request with a non-empty prompt, if the configured
search client's search call raises, the handler substitutes the fixed
"Error retrieving documents from search index." context string for the
snippets block, still proceeds to the completion stage
(`completionCalled = true`), and returns HTTP 200 with the answer
extracted from the completion — the search failure is never surfaced as
an error. -/
theorem search_failure_degrades_to_context (sp e : String)
    (bo : Option BlobOutcome) (q : String) (comp : Completion) (hq : q ≠ "") :
    (searchStage (some (.error e))).context =
      "\n\nError retrieving documents from search index." ∧
    chat_handler ⟨.jsonObj (some q), sp, some (.error e), .ok comp, bo⟩ =
      (⟨200, .chatBody (extractAnswer comp) (documentStage bo).1 []⟩,
       ⟨true, true, (documentStage bo).2⟩) := by
  refine ⟨rfl, ?_⟩
  rw [chat_handler_ok_eq sp _ bo q comp hq]
  rfl

/-- Witness for C1 at a concrete request. -/
theorem search_failure_degrades_to_context_witness :
    (searchStage (some (.error "boom"))).context =
      "\n\nError retrieving documents from search index." ∧
    chat_handler ⟨.jsonObj (some "q"), "SYS", some (.error "boom"),
        .ok ⟨[⟨"ans"⟩]⟩, none⟩ =
      (⟨200, .chatBody (extractAnswer ⟨[⟨"ans"⟩]⟩) (documentStage none).1 []⟩,
       ⟨true, true, (documentStage none).2⟩) :=
  search_failure_degrades_to_context "SYS" "boom" none "q" ⟨[⟨"ans"⟩]⟩ (by decide)

/-- C2: for every request with a non-empty prompt, if the completion
call raises, the handler returns HTTP 500 with the fixed generic body
"Failed to get response from AI model"; the response is the same for
every diagnostic text the underlying exception carries, so the original
diagnostic is never part of the response. -/
theorem completion_failure_yields_generic_500 (sp : String)
    (so : Option (Except String SearchResults)) (bo : Option BlobOutcome)
    (q e : String) (hq : q ≠ "") :
    chat_handler ⟨.jsonObj (some q), sp, so, .error e, bo⟩ =
      (⟨500, .errorBody "Failed to get response from AI model"⟩,
       ⟨(searchStage so).called, true, false⟩) ∧
    ∀ e₂ : String,
      chat_handler ⟨.jsonObj (some q), sp, so, .error e₂, bo⟩ =
        chat_handler ⟨.jsonObj (some q), sp, so, .error e, bo⟩ := by
  refine ⟨chat_handler_err_eq sp so bo q e hq, fun e₂ => ?_⟩
  rw [chat_handler_err_eq sp so bo q e hq, chat_handler_err_eq sp so bo q e₂ hq]

/-- Witness for C2 at a concrete request. -/
theorem completion_failure_yields_generic_500_witness :
    chat_handler ⟨.jsonObj (some "q"), "SYS", none, .error "socket timeout", none⟩ =
      (⟨500, .errorBody "Failed to get response from AI model"⟩,
       ⟨(searchStage none).called, true, false⟩) ∧
    ∀ e₂ : String,
      chat_handler ⟨.jsonObj (some "q"), "SYS", none, .error e₂, none⟩ =
        chat_handler ⟨.jsonObj (some "q"), "SYS", none, .error "socket timeout", none⟩ :=
  completion_failure_yields_generic_500 "SYS" none none "q" "socket timeout" (by decide)

/-- C3: on every successful chat request the `sources` list of the 200
response contains each collected source file name at most once, and each
source file name occurring in the search results exactly once. -/
theorem sources_list_deduplicated (sp : String) (res : SearchResults)
    (bo : Option BlobOutcome) (q : String) (comp : Completion) (hq : q ≠ "") :
    chat_handler ⟨.jsonObj (some q), sp, some (.ok res), .ok comp, bo⟩ =
      (⟨200, .chatBody (extractAnswer comp) (documentStage bo).1
          (searchStage (some (.ok res))).sourceFiles⟩,
       ⟨true, true, (documentStage bo).2⟩) ∧
    (∀ f, ((searchStage (some (.ok res))).sourceFiles).count f ≤ 1) ∧
    (∀ f, f ∈ res.results.map appSourceFile →
      ((searchStage (some (.ok res))).sourceFiles).count f = 1) := by
  have hnd : ((searchStage (some (.ok res))).sourceFiles).Nodup := by
    rw [searchStage_ok_sourceFiles]
    exact nodup_foldl_setAdd res.results [] List.nodup_nil
  refine ⟨?_, fun f => List.nodup_iff_count_le_one.mp hnd f, fun f hf => ?_⟩
  · rw [chat_handler_ok_eq sp _ bo q comp hq, searchStage_ok_called]
  · refine List.count_eq_one_of_mem hnd ?_
    rw [searchStage_ok_sourceFiles, mem_foldl_setAdd]
    exact Or.inr hf

/-- Witness for C3 at a concrete request whose two snippets carry the
same source file name. -/
theorem sources_list_deduplicated_witness :
    chat_handler ⟨.jsonObj (some "q"), "SYS",
        some (.ok ⟨2, [⟨"1", "T", "c1", "s", "ESG_Policy.pdf", 0, []⟩,
                       ⟨"2", "T", "c2", "s", "ESG_Policy.pdf", 0, []⟩]⟩),
        .ok ⟨[⟨"ans"⟩]⟩, none⟩ =
      (⟨200, .chatBody (extractAnswer ⟨[⟨"ans"⟩]⟩) (documentStage none).1
          (searchStage (some (.ok ⟨2,
            [⟨"1", "T", "c1", "s", "ESG_Policy.pdf", 0, []⟩,
             ⟨"2", "T", "c2", "s", "ESG_Policy.pdf", 0, []⟩]⟩))).sourceFiles⟩,
       ⟨true, true, (documentStage none).2⟩) ∧
    (∀ f, ((searchStage (some (.ok ⟨2,
        [⟨"1", "T", "c1", "s", "ESG_Policy.pdf", 0, []⟩,
         ⟨"2", "T", "c2", "s", "ESG_Policy.pdf", 0, []⟩]⟩))).sourceFiles).count f ≤ 1) ∧
    (∀ f, f ∈ ([⟨"1", "T", "c1", "s", "ESG_Policy.pdf", 0, []⟩,
                ⟨"2", "T", "c2", "s", "ESG_Policy.pdf", 0, []⟩] :
          List ProcessedDoc).map appSourceFile →
      ((searchStage (some (.ok ⟨2,
        [⟨"1", "T", "c1", "s", "ESG_Policy.pdf", 0, []⟩,
         ⟨"2", "T", "c2", "s", "ESG_Policy.pdf", 0, []⟩]⟩))).sourceFiles).count f = 1) :=
  sources_list_deduplicated "SYS"
    ⟨2, [⟨"1", "T", "c1", "s", "ESG_Policy.pdf", 0, []⟩,
         ⟨"2", "T", "c2", "s", "ESG_Policy.pdf", 0, []⟩]⟩
    none "q" ⟨[⟨"ans"⟩]⟩ (by decide)

/-- A concrete request whose two snippets carry source files in
anti-alphabetical order, exercising the order of the emitted sources
list. -/
def unsortedEnv : ChatEnv :=
  { body := .jsonObj (some "question")
    systemPrompt := "SYS"
    searchOutcome := some (.ok ⟨2,
      [⟨"1", "T1", "c1", "s1", "b.pdf", 0, []⟩,
       ⟨"2", "T2", "c2", "s2", "a.pdf", 0, []⟩]⟩)
    completionOutcome := .ok ⟨[⟨"answer"⟩]⟩
    blobOutcome := none }

/-- C4, counterexample: the sources list of the 200 response is *not*
sorted — with snippets carrying source files `b.pdf` then `a.pdf`, the
handler emits `["b.pdf", "a.pdf"]`, which is not in sorted order. -/
theorem sources_not_sorted_counterexample :
    (chat_handler unsortedEnv).1 =
      ⟨200, .chatBody "answer" none ["b.pdf", "a.pdf"]⟩ ∧
    ¬ (["b.pdf", "a.pdf"] : List String).Sorted (· ≤ ·) := by
  refine ⟨rfl, ?_⟩
  simp only [List.sorted_cons, List.mem_singleton, forall_eq,
    List.sorted_singleton, and_true]
  rw [String.le_iff_toList_le]
  decide

/-- C4 as amended: the sources list of the 200 response is deduplicated
(no element twice) and carries exactly the source file names collected
from the search results, but the handler applies no sorting — the order
is the (unspecified) iteration order of the Python set, modelled here as
first-insertion order. -/
theorem sources_list_nodup_not_sorted (sp : String) (res : SearchResults)
    (bo : Option BlobOutcome) (q : String) (comp : Completion) (hq : q ≠ "") :
    chat_handler ⟨.jsonObj (some q), sp, some (.ok res), .ok comp, bo⟩ =
      (⟨200, .chatBody (extractAnswer comp) (documentStage bo).1
          (searchStage (some (.ok res))).sourceFiles⟩,
       ⟨true, true, (documentStage bo).2⟩) ∧
    ((searchStage (some (.ok res))).sourceFiles).Nodup ∧
    (∀ f, f ∈ (searchStage (some (.ok res))).sourceFiles ↔
      f ∈ res.results.map appSourceFile) := by
  refine ⟨?_, ?_, fun f => ?_⟩
  · rw [chat_handler_ok_eq sp _ bo q comp hq, searchStage_ok_called]
  · rw [searchStage_ok_sourceFiles]
    exact nodup_foldl_setAdd res.results [] List.nodup_nil
  · rw [searchStage_ok_sourceFiles, mem_foldl_setAdd]
    simp

/-- Witness for the amended C4 at a concrete request. -/
theorem sources_list_nodup_not_sorted_witness :
    chat_handler ⟨.jsonObj (some "question"), "SYS",
        some (.ok ⟨2, [⟨"1", "T1", "c1", "s1", "b.pdf", 0, []⟩,
                       ⟨"2", "T2", "c2", "s2", "a.pdf", 0, []⟩]⟩),
        .ok ⟨[⟨"answer"⟩]⟩, none⟩ =
      (⟨200, .chatBody (extractAnswer ⟨[⟨"answer"⟩]⟩) (documentStage none).1
          (searchStage (some (.ok ⟨2,
            [⟨"1", "T1", "c1", "s1", "b.pdf", 0, []⟩,
             ⟨"2", "T2", "c2", "s2", "a.pdf", 0, []⟩]⟩))).sourceFiles⟩,
       ⟨true, true, (documentStage none).2⟩) ∧
    ((searchStage (some (.ok ⟨2,
        [⟨"1", "T1", "c1", "s1", "b.pdf", 0, []⟩,
         ⟨"2", "T2", "c2", "s2", "a.pdf", 0, []⟩]⟩))).sourceFiles).Nodup ∧
    (∀ f, f ∈ (searchStage (some (.ok ⟨2,
        [⟨"1", "T1", "c1", "s1", "b.pdf", 0, []⟩,
         ⟨"2", "T2", "c2", "s2", "a.pdf", 0, []⟩]⟩))).sourceFiles ↔
      f ∈ ([⟨"1", "T1", "c1", "s1", "b.pdf", 0, []⟩,
            ⟨"2", "T2", "c2", "s2", "a.pdf", 0, []⟩] :
          List ProcessedDoc).map appSourceFile) :=
  sources_list_nodup_not_sorted "SYS"
    ⟨2, [⟨"1", "T1", "c1", "s1", "b.pdf", 0, []⟩,
         ⟨"2", "T2", "c2", "s2", "a.pdf", 0, []⟩]⟩
    none "question" ⟨[⟨"answer"⟩]⟩ (by decide)

/-- C5: for every request whose JSON body is an object with a missing
prompt field or an empty prompt value, the handler returns HTTP 400 with
body `error = "No prompt provided"`, and neither the search nor the
completion nor the upload call is made. -/
theorem missing_or_empty_prompt_400 (sp : String)
    (so : Option (Except String SearchResults)) (co : Except String Completion)
    (bo : Option BlobOutcome) (p : Option String)
    (hp : p = none ∨ p = some "") :
    chat_handler ⟨.jsonObj p, sp, so, co, bo⟩ =
      (⟨400, .errorBody "No prompt provided"⟩, ⟨false, false, false⟩) := by
  rcases hp with rfl | rfl
  · rfl
  · simp [chat_handler]

/-- Witness for C5 at two concrete requests: prompt field absent, and
prompt field empty. -/
theorem missing_or_empty_prompt_400_witness :
    chat_handler ⟨.jsonObj none, "SYS", none, .ok ⟨[]⟩, none⟩ =
      (⟨400, .errorBody "No prompt provided"⟩, ⟨false, false, false⟩) ∧
    chat_handler ⟨.jsonObj (some ""), "SYS", none, .ok ⟨[]⟩, none⟩ =
      (⟨400, .errorBody "No prompt provided"⟩, ⟨false, false, false⟩) :=
  ⟨missing_or_empty_prompt_400 "SYS" none (.ok ⟨[]⟩) none none (Or.inl rfl),
   missing_or_empty_prompt_400 "SYS" none (.ok ⟨[]⟩) none (some "") (Or.inr rfl)⟩

/-- C6: if no document store client is configured, `document_url` is
null and no upload call is made; and if the upload stage raises or
returns its internal unavailable signal, `document_url` is null while
the request still returns HTTP 200 with the answer — a document-pipeline
failure is never surfaced as an error. -/
theorem document_pipeline_failure_not_fatal (sp : String)
    (so : Option (Except String SearchResults)) (q : String)
    (comp : Completion) (hq : q ≠ "") (bo : Option BlobOutcome)
    (hbo : bo = none ∨ bo = some .raises ∨ bo = some (.returns none)) :
    (chat_handler ⟨.jsonObj (some q), sp, so, .ok comp, bo⟩).1 =
      ⟨200, .chatBody (extractAnswer comp) none (searchStage so).sourceFiles⟩ ∧
    (bo = none →
      (chat_handler ⟨.jsonObj (some q), sp, so, .ok comp, bo⟩).2.uploadCalled = false) := by
  rcases hbo with rfl | rfl | rfl <;>
    rw [chat_handler_ok_eq sp so _ q comp hq]
  · exact ⟨rfl, fun _ => rfl⟩
  · exact ⟨rfl, fun h => by cases h⟩
  · exact ⟨rfl, fun h => by cases h⟩

/-- Witness for C6 at a concrete request with no configured document
store. -/
theorem document_pipeline_failure_not_fatal_witness :
    (chat_handler ⟨.jsonObj (some "q"), "SYS", none, .ok ⟨[⟨"ans"⟩]⟩, none⟩).1 =
      ⟨200, .chatBody (extractAnswer ⟨[⟨"ans"⟩]⟩) none (searchStage none).sourceFiles⟩ ∧
    ((none : Option BlobOutcome) = none →
      (chat_handler ⟨.jsonObj (some "q"), "SYS", none,
        .ok ⟨[⟨"ans"⟩]⟩, none⟩).2.uploadCalled = false) :=
  document_pipeline_failure_not_fatal "SYS" none "q" ⟨[⟨"ans"⟩]⟩ (by decide)
    none (Or.inl rfl)

/-- C7: when the completion call succeeds but returns zero choices, the
answer returned to the caller is the fixed fallback string and the
request completes with HTTP 200. -/
theorem zero_choices_fallback_answer (sp : String)
    (so : Option (Except String SearchResults)) (bo : Option BlobOutcome)
    (q : String) (hq : q ≠ "") :
    (chat_handler ⟨.jsonObj (some q), sp, so, .ok ⟨[]⟩, bo⟩).1 =
      ⟨200, .chatBody "Sorry, I could not generate a response."
        (documentStage bo).1 (searchStage so).sourceFiles⟩ := by
  rw [chat_handler_ok_eq sp so bo q ⟨[]⟩ hq]
  rfl

/-- Witness for C7 at a concrete request. -/
theorem zero_choices_fallback_answer_witness :
    (chat_handler ⟨.jsonObj (some "q"), "SYS", none, .ok ⟨[]⟩, none⟩).1 =
      ⟨200, .chatBody "Sorry, I could not generate a response."
        (documentStage none).1 (searchStage none).sourceFiles⟩ :=
  zero_choices_fallback_answer "SYS" none none "q" (by decide)

/-- An upstream search hit with neither a `content` nor a `sourceFile`
field. -/
def bareRaw : RawDoc := ⟨"doc1", none, none, none, none, 0, []⟩

/-- C8, counterexample: a search result whose upstream document lacks a
`sourceFile` field is exposed with the empty string, not with
`"Unknown Source"` — the search client fills the key with `""`, and
because the key is then always present, the orchestrator's
`"Unknown Source"` default is never reached. -/
theorem unknown_source_label_counterexample :
    (processResult bareRaw).sourceFile = "" ∧
    (processResult bareRaw).sourceFile ≠ "Unknown Source" ∧
    appSourceFile (processResult bareRaw) ≠ "Unknown Source" := by
  decide

/-- C8 as amended: when the upstream document lacks `content` or
`sourceFile`, the search client exposes the empty string for both; a
snippet with no upstream `sourceFile` is labelled with the empty string
in the context block and contributes the empty string to the collected
source file names of the response. -/
theorem missing_upstream_fields_become_empty (r : RawDoc)
    (hc : r.content = none) (hs : r.sourceFile = none) :
    (processResult r).content = "" ∧
    (processResult r).sourceFile = "" ∧
    snippetBlock (processResult r) = "\n---\nSource: \nSnippet: \n---" ∧
    ∀ (sp : String) (cnt : Nat) (bo : Option BlobOutcome) (q : String)
      (comp : Completion), q ≠ "" →
      (chat_handler ⟨.jsonObj (some q), sp,
          some (.ok (search_documents [r] cnt)), .ok comp, bo⟩).1 =
        ⟨200, .chatBody (extractAnswer comp) (documentStage bo).1 [""]⟩ := by
  obtain ⟨i, t, c, s, f, sc, cap⟩ := r
  simp only at hc hs
  subst hc hs
  refine ⟨rfl, rfl, rfl, fun sp cnt bo q comp hq => ?_⟩
  rw [chat_handler_ok_eq sp _ bo q comp hq]
  rfl

/-- Witness for the amended C8 at a concrete request with one bare
snippet. -/
theorem missing_upstream_fields_become_empty_witness :
    (chat_handler ⟨.jsonObj (some "q"), "SYS",
        some (.ok (search_documents [bareRaw] 1)), .ok ⟨[⟨"ans"⟩]⟩, none⟩).1 =
      ⟨200, .chatBody (extractAnswer ⟨[⟨"ans"⟩]⟩) (documentStage none).1 [""]⟩ :=
  (missing_upstream_fields_become_empty bareRaw rfl rfl).2.2.2
    "SYS" 1 none "q" ⟨[⟨"ans"⟩]⟩ (by decide)

/-- C9, counterexample: the renderer emits one bulleted line per *entry*
of the sources list, not per unique source name — with the duplicate
list `["a.pdf", "a.pdf"]` it emits two source-styled lines although the
list has one unique name. -/
theorem bullet_per_unique_source_counterexample :
    ((create_docx_document "q" "a" ["a.pdf", "a.pdf"] "t").body.countP
        (fun p => p.style == "Source")) = 2 ∧
    (["a.pdf", "a.pdf"] : List String).dedup.length = 1 ∧
    ((create_docx_document "q" "a" ["a.pdf", "a.pdf"] "t").body.countP
        (fun p => p.style == "Source")) ≠
      (["a.pdf", "a.pdf"] : List String).dedup.length := by
  decide

/-- C9 as amended: for every (question, answer, sources) triple the
rendered document contains, in order, the centered title, right-aligned
generation timestamp, separator line, "Question:" heading, verbatim
question, blank spacing, "Answer:" heading and verbatim answer; the
"Sources:" heading is present if and only if the sources list is
non-empty and is then followed, in order, by one bulleted source-styled
line per *entry* of the sources list (one per unique name when the list
is deduplicated, as the orchestrator guarantees); the footer is the
centered issuing-organization label. -/
theorem renderer_layout (q a now : String) (sources : List String) :
    (claimedSequence q a now).Sublist (create_docx_document q a sources now).body ∧
    (sources ≠ [] →
      (claimedSequence q a now ++
        ⟨"Sources:", "Heading", Align.left⟩ :: sources.map bulletPara).Sublist
        (create_docx_document q a sources now).body) ∧
    ((⟨"Sources:", "Heading", Align.left⟩ : Para) ∈
        (create_docx_document q a sources now).body ↔ sources ≠ []) ∧
    ((create_docx_document q a sources now).body.filter
        (fun p => p.style == "Source")).map Para.text =
      sources.map (fun s => bulletPrefix ++ s) ∧
    (create_docx_document q a sources now).footer =
      ⟨"Hudson Advisors DDQ Assistant", "Normal", Align.center⟩ := by
  cases sources with
  | nil =>
      refine ⟨?_, fun h => absurd rfl h, ?_, rfl, rfl⟩
      · exact List.sublist_append_left _ _
      · simp [create_docx_document, claimedSequence, Para.mk.injEq]
  | cons s rest =>
      refine ⟨List.sublist_append_left _ _, fun _ => ?_, ?_, ?_, rfl⟩
      · show (claimedSequence q a now ++
          (⟨"Sources:", "Heading", Align.left⟩ :: (s :: rest).map bulletPara)).Sublist
          (claimedSequence q a now ++
          (⟨"", "Normal", Align.left⟩ :: ⟨"Sources:", "Heading", Align.left⟩ ::
            (s :: rest).map bulletPara))
        exact List.Sublist.append_left (List.sublist_cons_self _ _) _
      · simp [create_docx_document]
      · show ((claimedSequence q a now ++
            (⟨"", "Normal", Align.left⟩ :: ⟨"Sources:", "Heading", Align.left⟩ ::
              (s :: rest).map bulletPara)).filter
            (fun p => p.style == "Source")).map Para.text =
          (s :: rest).map (fun s => bulletPrefix ++ s)
        rw [List.filter_append,
          show (claimedSequence q a now).filter (fun p => p.style == "Source") = []
            from rfl,
          List.filter_cons, List.filter_cons]
        simp only [show ((⟨"", "Normal", Align.left⟩ : Para).style == "Source") = false
            from rfl,
          show ((⟨"Sources:", "Heading", Align.left⟩ : Para).style == "Source") = false
            from rfl,
          Bool.false_eq_true, if_false, List.nil_append, filter_bullet]
        rw [List.map_map]
        rfl

/-- Witness for the amended C9 at a concrete triple with one source. -/
theorem renderer_layout_witness :
    (claimedSequence "q" "a" "t" ++
      ⟨"Sources:", "Heading", Align.left⟩ :: ["s.pdf"].map bulletPara).Sublist
      (create_docx_document "q" "a" ["s.pdf"] "t").body :=
  (renderer_layout "q" "a" "t" ["s.pdf"]).2.1 (by decide)

/-- C10: for every POST whose body is not a parseable JSON object (so
that extracting the prompt raises), the handler returns the generic
HTTP 500 server-error response from the outer boundary — not the
HTTP 400 "No prompt provided" client-input error. -/
theorem unparseable_body_is_500_not_400 (sp : String)
    (so : Option (Except String SearchResults)) (co : Except String Completion)
    (bo : Option BlobOutcome) :
    chat_handler ⟨.badBody, sp, so, co, bo⟩ =
      (⟨500, .errorBody "An internal server error occurred"⟩,
       ⟨false, false, false⟩) ∧
    (chat_handler ⟨.badBody, sp, so, co, bo⟩).1.status ≠ 400 ∧
    (chat_handler ⟨.badBody, sp, so, co, bo⟩).1.body ≠
      .errorBody "No prompt provided" := by
  refine ⟨rfl, ?_, ?_⟩
  · show (500 : Nat) ≠ 400
    decide
  · show RespBody.errorBody "An internal server error occurred" ≠
      .errorBody "No prompt provided"
    decide

end DDQ
